import Mathlib

/-!
Verification of the time-weighted average sensor core (`sensor.py`,
`const.py`) against its natural-language specification.

Shallow-embedding conventions:

* Python floats are modelled as exact rationals (`ℚ`) in the
  aggregation core; timestamps are rationals counted in seconds
  (`timedelta.total_seconds`). Because Python `float()` also parses the
  non-finite spellings ("inf", "-inf", "nan") without raising, the
  ingestion handler is additionally modelled over the full `float`
  codomain (`PyFloat`, `ingestF`); on finite parses the two handlers
  agree (`ingestF_agrees_on_finite`).
* The per-entity dict `self.states` (keys fixed at construction) is an
  association list in key insertion order; mutating one key's buffer in
  place rebuilds that entry.
* The uncaught `NameError` raised by the debug-log line in
  `calculate_linear` (sensor.py line 305 references a variable `total`
  that is not defined in that scope) is modelled by an explicit error
  channel on the tick computation: the buffer is cleared first (line 303),
  then the error propagates out of `update`, skipping the report and the
  extrema reset.
* Python `str(...)` applied to the tracked extrema (a float or `None`) is
  modelled by an injective constructor pair, without committing to digit
  rendering; entity ids are carried through unconverted.
-/

namespace TwAvg

/-- One buffered sample `(timestamp_start, state)` as appended at
sensor.py line 232. -/
structure Sample where
  t : ℚ
  v : ℚ
deriving DecidableEq, Repr

/-- Per-source aggregation method (`METHOD_TIME_WEIGHTED` / `METHOD_LINEAR`
from const.py). -/
inductive Method
  | timeWeighted
  | linear
deriving DecidableEq, Repr

/-- Cross-source combination method (`TOTAL_METHOD_SUM` /
`TOTAL_METHOD_AVERAGE` from const.py). -/
inductive TotalMethod
  | sum
  | average
deriving DecidableEq, Repr

/-- The configuration consumed by `TwAverageSensor.__init__`. -/
structure Config where
  scan_interval : ℚ
  method : Method
  total_method : TotalMethod
  precision : Nat
  extremas : Bool
deriving DecidableEq, Repr

/-- A Python exception escaping the sensor core. Only the `NameError`
from the undefined `total` in `calculate_linear` (line 305) is reachable. -/
inductive PyError
  | nameError
deriving DecidableEq, Repr

/-- Result of Python `str(x)` where `x` is a float or `None`:
`str` of a float renders its digits, `str(None)` is the string "None".
Modelled injectively without committing to digit rendering. -/
inductive PyStr
  | ofFloat (q : ℚ)
  | ofNone
deriving DecidableEq, Repr

/-- Conversion `str(self.min_value)` at sensor.py lines 322/324: the
tracked value is a float or `None`. -/
def strOfOpt : Option ℚ → PyStr
  | some q => PyStr.ofFloat q
  | none => PyStr.ofNone

/-- A value stored in the published attribute dictionary: either a string
produced by `str(...)`, or an entity id (possibly `None`) passed through
unconverted. -/
inductive AttrVal
  | str (s : PyStr)
  | entityId (s : Option String)
deriving DecidableEq, Repr

/-- The four extrema entries written into `_attr_extra_state_attributes`
at sensor.py lines 320-327. -/
structure ExtremaAttrs where
  min_value : AttrVal
  min_entity_id : AttrVal
  max_value : AttrVal
  max_entity_id : AttrVal
deriving DecidableEq, Repr

/-- One published report (`async_write_ha_state` at line 328): the new
native value together with the extrema attributes carried in the
attribute dictionary at that moment (`none` when never written). -/
structure Report where
  value : ℚ
  attrs : Option ExtremaAttrs
deriving DecidableEq, Repr

/-- The mutable state of `TwAverageSensor`: the per-entity buffers
(`self.states`), the extrema tracker (lines 200-203), the published
native value (`_attr_native_value`) and the extrema part of the
published attribute dictionary. -/
structure SensorState where
  states : List (String × List Sample)
  min_value : Option ℚ
  max_value : Option ℚ
  min_entity_id : Option String
  max_entity_id : Option String
  native_value : Option ℚ
  extrema_attrs : Option ExtremaAttrs
deriving DecidableEq, Repr

/-- The raw state delivered to `_async_sensor_changed`, restricted to
the finite fragment used by the aggregation model: the unavailable and
unknown sentinels, a state string `float` parses to a *finite* value,
or a state string `float` raises on (`ValueError`/`TypeError`).
Python `float` also parses the non-finite spellings ("inf", "-inf",
"nan", ...) without raising; that case is outside this fragment and is
modelled by `RawState` and `ingestF` below, over the full `float`
codomain `PyFloat`. `ingestF_agrees_on_finite` shows the two handlers
coincide on this fragment. -/
inductive RawValue
  | unavailable
  | unknown
  | parseable (v : ℚ)
  | malformed
deriving DecidableEq, Repr

/-- Append a sample to one entity's buffer, leaving other entries
untouched (`self.states[entity_id].append(...)`, line 232). -/
def appendSample (bufs : List (String × List Sample)) (e : String) (s : Sample) :
    List (String × List Sample) :=
  bufs.map (fun p => if p.1 = e then (p.1, p.2 ++ [s]) else p)

/-- The extrema-tracking block of `_async_sensor_changed`
(sensor.py lines 234-244). The code tests `self.min_value is None` and
otherwise compares with strict `<` / `>` (`elif`), so an incoming value
equal to the current extremum changes nothing. The `some _, none` branch
is unreachable in practice (min and max are always set together); there
Python would raise `TypeError` comparing with `None`, which the handler
at line 245 catches after the append already happened, so the state with
the appended sample is kept and the tracker is unchanged. -/
def updateExtremas (st : SensorState) (entity_id : String) (v : ℚ) : SensorState :=
  match st.min_value, st.max_value with
  | none, _ =>
      { st with min_value := some v, max_value := some v,
                min_entity_id := some entity_id, max_entity_id := some entity_id }
  | some m, some M =>
      if v < m then { st with min_value := some v, min_entity_id := some entity_id }
      else if M < v then { st with max_value := some v, max_entity_id := some entity_id }
      else st
  | some _, none => st

/-- The ingestion handler `_async_sensor_changed` (sensor.py lines
221-246). Sentinel states return before any mutation (line 223); a state
`float` cannot parse raises `ValueError`, caught at line 245 before any
mutation, leaving the state unchanged. A parseable value is appended to
the source's buffer and, when extrema tracking is enabled, fed to the
tracker. Callers only pass entity ids registered at construction (the
listener is bound to `self._entity_ids`, exactly the dict keys). -/
def ingest (cfg : Config) (st : SensorState) (entity_id : String) (last_updated : ℚ)
    (raw : RawValue) : SensorState :=
  match raw with
  | RawValue.unavailable => st
  | RawValue.unknown => st
  | RawValue.malformed => st
  | RawValue.parseable v =>
      if (st.states.lookup entity_id).isSome then
        let st1 := { st with states := appendSample st.states entity_id (Sample.mk last_updated v) }
        if cfg.extremas then updateExtremas st1 entity_id v else st1
      else st

/-- The full codomain of Python `float()`: a finite value, one of the
two infinities, or nan. `float` parses the strings "inf", "-inf",
"nan" (and spelling variants) to the non-finite values without
raising. -/
inductive PyFloat
  | finite (q : ℚ)
  | inf
  | ninf
  | nan
deriving DecidableEq, Repr

/-- IEEE-754 `<` as Python evaluates it on floats: any comparison with
nan is false, the infinities compare beyond every finite value, and on
finite values it is the rational order. -/
def PyFloat.lt : PyFloat → PyFloat → Bool
  | PyFloat.nan, _ => false
  | _, PyFloat.nan => false
  | PyFloat.finite a, PyFloat.finite b => decide (a < b)
  | PyFloat.finite _, PyFloat.inf => true
  | PyFloat.finite _, PyFloat.ninf => false
  | PyFloat.inf, _ => false
  | PyFloat.ninf, PyFloat.ninf => false
  | PyFloat.ninf, _ => true

/-- The raw state delivered to `_async_sensor_changed`, over the full
`float` codomain: sentinels, a state `float` parses to some `PyFloat`
(finite or not), or a state `float` raises on. -/
inductive RawState
  | unavailable
  | unknown
  | parsed (x : PyFloat)
  | malformed
deriving DecidableEq, Repr

/-- A buffered sample whose value ranges over the full `float`
codomain. -/
structure SampleF where
  t : ℚ
  v : PyFloat
deriving DecidableEq, Repr

/-- The fields of `TwAverageSensor` touched by `_async_sensor_changed`
(buffers and extrema tracker), with values over the full `float`
codomain. -/
structure IngestState where
  states : List (String × List SampleF)
  min_value : Option PyFloat
  max_value : Option PyFloat
  min_entity_id : Option String
  max_entity_id : Option String
deriving DecidableEq, Repr

/-- Append over `PyFloat`-valued buffers (sensor.py line 232). -/
def appendSampleF (bufs : List (String × List SampleF)) (e : String) (s : SampleF) :
    List (String × List SampleF) :=
  bufs.map (fun p => if p.1 = e then (p.1, p.2 ++ [s]) else p)

/-- The extrema block of `_async_sensor_changed` (sensor.py lines
234-244) over the full `float` codomain, with the strict comparisons
evaluated by IEEE rules (`PyFloat.lt`). -/
def updateExtremasF (st : IngestState) (entity_id : String) (v : PyFloat) : IngestState :=
  match st.min_value, st.max_value with
  | none, _ =>
      { st with min_value := some v, max_value := some v,
                min_entity_id := some entity_id, max_entity_id := some entity_id }
  | some m, some M =>
      if PyFloat.lt v m then { st with min_value := some v, min_entity_id := some entity_id }
      else if PyFloat.lt M v then
        { st with max_value := some v, max_entity_id := some entity_id }
      else st
  | some _, none => st

/-- The ingestion handler `_async_sensor_changed` (sensor.py lines
221-246) over the full `float` codomain: sentinels return before any
mutation, a raising `float()` is caught before any mutation, and every
successfully parsed value — finite or not, since the code performs no
finiteness check — is appended to the source's buffer and fed to the
extrema tracker. -/
def ingestF (cfg : Config) (st : IngestState) (entity_id : String) (last_updated : ℚ)
    (raw : RawState) : IngestState :=
  match raw with
  | RawState.unavailable => st
  | RawState.unknown => st
  | RawState.malformed => st
  | RawState.parsed x =>
      if (st.states.lookup entity_id).isSome then
        let st1 := { st with states := appendSampleF st.states entity_id (SampleF.mk last_updated x) }
        if cfg.extremas then updateExtremasF st1 entity_id x else st1
      else st

/-- Embedding of a finite-valued sample into the full domain. -/
def embedSample (s : Sample) : SampleF :=
  SampleF.mk s.t (PyFloat.finite s.v)

/-- Embedding of the finite-valued buffers into the full domain. -/
def embedBuffers (l : List (String × List Sample)) : List (String × List SampleF) :=
  l.map (fun p => (p.1, p.2.map embedSample))

/-- Embedding of the sensor state's ingestion-relevant fields into the
full domain. -/
def embedIngest (st : SensorState) : IngestState :=
  IngestState.mk (embedBuffers st.states) (st.min_value.map PyFloat.finite)
    (st.max_value.map PyFloat.finite) st.min_entity_id st.max_entity_id

/-- The summation loop of `calculate_tw` (sensor.py lines 282-285): each
sample's value is weighted by the span to the next sample's timestamp,
the last by the span to `now`. -/
def tw_sum (now : ℚ) : List Sample → ℚ
  | [] => 0
  | [s] => s.v * (now - s.t)
  | s :: s2 :: rest => s.v * (s2.t - s.t) + tw_sum now (s2 :: rest)

/-- The body of `calculate_tw` (sensor.py lines 275-296): the weighted
sum divided by `self.scan_interval.total_seconds()`, and the buffer
replaced by the single seed sample `(now, last_value)` (lines 292-294).
Only called on non-empty buffers (line 258 guards `len(states) > 0`). -/
def calculate_tw (scan_interval now : ℚ) (ss : List Sample) : ℚ × List Sample :=
  (tw_sum now ss / scan_interval,
   match ss.getLast? with
   | some s => [Sample.mk now s.v]
   | none => [])

/-- The mean computed at sensor.py lines 300-301:
`sum(values) / len(values)` over the buffered values. -/
def linear_result (ss : List Sample) : ℚ :=
  (ss.map Sample.v).sum / (ss.length : ℚ)

/-- The body of `calculate_linear` (sensor.py lines 298-307): the mean is
computed (line 301) and the buffer cleared without reseeding (line 303),
but the debug log at line 305 references the undefined name `total`, so
the call raises `NameError` and never returns the computed result. -/
def calculate_linear (ss : List Sample) : ℚ × List Sample × Option PyError :=
  (linear_result ss, [], some PyError.nameError)

/-- Outcome of the drain loop of `update` (sensor.py lines 256-263):
the rewritten buffer entries, the accumulated `total`, the
`state_changed` flag, and the first uncaught exception, if any. -/
structure LoopOut where
  items : List (String × List Sample)
  total : ℚ
  changed : Bool
  err : Option PyError
deriving DecidableEq, Repr

/-- The drain loop of `update` (sensor.py lines 256-263): iterate the
buffer entries in dict order; a non-empty buffer sets `state_changed`
and contributes via `calculate_linear` or `calculate_tw` (the dispatch
at line 260 compares with `METHOD_LINEAR`, anything else takes the
time-weighted branch). The linear branch clears the buffer and then
raises, aborting the loop with later entries untouched. -/
def updateLoop (cfg : Config) (now : ℚ) :
    List (String × List Sample) → LoopOut
  | [] => LoopOut.mk [] 0 false none
  | (e, ss) :: rest =>
      if 0 < ss.length then
        if cfg.method = Method.linear then
          let c := calculate_linear ss
          LoopOut.mk ((e, c.2.1) :: rest) c.1 true c.2.2
        else
          let c := calculate_tw cfg.scan_interval now ss
          let r := updateLoop cfg now rest
          LoopOut.mk ((e, c.2) :: r.items) (c.1 + r.total) true r.err
      else
        let r := updateLoop cfg now rest
        LoopOut.mk ((e, ss) :: r.items) r.total r.changed r.err

/-- Python `int(x)` on a float: truncation toward zero. -/
def pyTrunc (x : ℚ) : ℤ := x.num.tdiv (x.den : ℤ)

/-- Floor of a rational, computed directly on numerator and denominator. -/
def ratFloor (x : ℚ) : ℤ := x.num.fdiv (x.den : ℤ)

/-- Round-half-to-even on an exact rational, the model of Python's
`round` at unit scale. -/
def roundHalfEven (x : ℚ) : ℤ :=
  let f := ratFloor x
  let frac := x - (f : ℚ)
  if frac < 1/2 then f
  else if 1/2 < frac then f + 1
  else if f % 2 = 0 then f else f + 1

/-- The rounding step of `update_state` (sensor.py lines 311-314):
precision 0 truncates with `int`, otherwise `round(x, precision)`
rounds half-to-even at `precision` decimal digits. -/
def pyRound (p : Nat) (x : ℚ) : ℚ :=
  if p = 0 then ((pyTrunc x : ℤ) : ℚ)
  else ((roundHalfEven (x * (10 : ℚ) ^ p) : ℤ) : ℚ) / (10 : ℚ) ^ p

/-- The extrema attribute dictionary entries written at sensor.py lines
319-327 when a new value is published: with extrema tracking enabled,
the tracked values go through `str` and the entity ids are passed
through unconverted; otherwise the dictionary keeps its previous
extrema entries. -/
def newAttrs (cfg : Config) (st : SensorState) : Option ExtremaAttrs :=
  if cfg.extremas then
    some (ExtremaAttrs.mk (AttrVal.str (strOfOpt st.min_value))
      (AttrVal.entityId st.min_entity_id)
      (AttrVal.str (strOfOpt st.max_value))
      (AttrVal.entityId st.max_entity_id))
  else st.extrema_attrs

/-- The body of `update_state` (sensor.py lines 309-328): round, compare
with the current native value (`!=` at line 316; an unset `None` value
compares unequal to any number), and when different store the new value,
rewrite the extrema attributes and publish. -/
def update_state (cfg : Config) (st : SensorState) (new_value : ℚ) :
    SensorState × Option Report :=
  if st.native_value = some (pyRound cfg.precision new_value) then (st, none)
  else
    ({ st with native_value := some (pyRound cfg.precision new_value),
               extrema_attrs := newAttrs cfg st },
     some (Report.mk (pyRound cfg.precision new_value) (newAttrs cfg st)))

/-- Result of one `update` call: the new sensor state, the report
published by `async_write_ha_state` if any, and the exception
propagating to the caller if any. -/
structure UpdateResult where
  st : SensorState
  report : Option Report
  err : Option PyError
deriving DecidableEq, Repr

/-- The tick entry point `update` (sensor.py lines 248-273): drain every
buffer, and when any source had samples combine the contributions —
divided by `len(self.states)`, the number of *configured* sources, when
the total method is `average` (line 268) — and hand the combined value to
`update_state`. The extrema tracker is reset at line 273 after the
report; when the drain loop raised, the exception propagates out of the
`with` block first, so neither the report nor the extrema reset happens. -/
def update (cfg : Config) (now : ℚ) (st : SensorState) : UpdateResult :=
  let r := updateLoop cfg now st.states
  let st1 : SensorState := { st with states := r.items }
  match r.err with
  | some e => UpdateResult.mk st1 none (some e)
  | none =>
    let pr :=
      if r.changed then
        if cfg.total_method = TotalMethod.average then
          update_state cfg st1 (r.total / (st.states.length : ℚ))
        else
          update_state cfg st1 r.total
      else (st1, none)
    UpdateResult.mk
      { pr.1 with min_value := none, max_value := none,
                  min_entity_id := none, max_entity_id := none }
      pr.2 none

/-- The total the drain loop accumulates in time-weighted mode: the sum,
over sources with a non-empty buffer, of their `calculate_tw`
contributions. -/
def twTotal (scan_interval now : ℚ) : List (String × List Sample) → ℚ
  | [] => 0
  | (_, ss) :: rest =>
      (if 0 < ss.length then (calculate_tw scan_interval now ss).1 else 0) +
        twTotal scan_interval now rest

/-- Specification formulation of the time-weighted contribution (spec
§4.2.1.a): `Σ v_i * duration_i` where the duration of each sample is the
gap to the next sample's timestamp and the last sample extends to `now`. -/
def tw_contribution_spec (now : ℚ) (ss : List Sample) : ℚ :=
  ((ss.zip ss.tail).map (fun p => p.1.v * (p.2.t - p.1.t))).sum +
    match ss.getLast? with
    | some s => s.v * (now - s.t)
    | none => 0

lemma tw_sum_eq_spec (now : ℚ) :
    ∀ ss : List Sample, ss ≠ [] → tw_sum now ss = tw_contribution_spec now ss := by
  intro ss
  induction ss with
  | nil => intro h; exact absurd rfl h
  | cons s rest ih =>
    intro _
    cases rest with
    | nil => simp [tw_sum, tw_contribution_spec]
    | cons s2 rest2 =>
      have hspec := ih (by simp)
      rw [tw_sum, hspec]
      unfold tw_contribution_spec
      rw [List.getLast?_cons_cons]
      simp only [List.tail_cons, List.zip_cons_cons, List.map_cons, List.sum_cons]
      ring

lemma updateLoop_err_eq_none_tw (cfg : Config) (now : ℚ)
    (h : cfg.method = Method.timeWeighted) :
    ∀ l, (updateLoop cfg now l).err = none := by
  intro l
  induction l with
  | nil => rfl
  | cons p rest ih =>
    obtain ⟨e, ss⟩ := p
    by_cases hss : 0 < ss.length
    · simp [updateLoop, hss, h, ih]
    · simp [updateLoop, hss, ih]

lemma updateLoop_total_tw (cfg : Config) (now : ℚ)
    (h : cfg.method = Method.timeWeighted) :
    ∀ l, (updateLoop cfg now l).total = twTotal cfg.scan_interval now l := by
  intro l
  induction l with
  | nil => rfl
  | cons p rest ih =>
    obtain ⟨e, ss⟩ := p
    by_cases hss : 0 < ss.length
    · simp [updateLoop, twTotal, hss, h, ih]
    · simp [updateLoop, twTotal, hss, ih]

lemma updateLoop_changed_iff (cfg : Config) (now : ℚ) :
    ∀ l, ((updateLoop cfg now l).changed = true ↔ ∃ p ∈ l, p.2 ≠ []) := by
  intro l
  induction l with
  | nil => simp [updateLoop]
  | cons p rest ih =>
    obtain ⟨e, ss⟩ := p
    by_cases hss : 0 < ss.length
    · have hne : ss ≠ [] := by
        cases ss with
        | nil => simp at hss
        | cons a b => simp
      by_cases hmth : cfg.method = Method.linear
      · simp only [updateLoop, hss, if_true, hmth]
        simp only [true_iff]
        exact ⟨(e, ss), by simp, hne⟩
      · simp only [updateLoop, hss, if_true, if_pos, hmth, if_false]
        simp only [true_iff]
        exact ⟨(e, ss), by simp, hne⟩
    · have hnil : ss = [] := by
        cases ss with
        | nil => rfl
        | cons a b => simp at hss
      subst hnil
      simp [updateLoop, hss, ih]

lemma updateLoop_items_tw (cfg : Config) (now : ℚ)
    (h : cfg.method = Method.timeWeighted) :
    ∀ l, (updateLoop cfg now l).items = l.map (fun p =>
      match p.2.getLast? with
      | none => p
      | some s => (p.1, [Sample.mk now s.v])) := by
  intro l
  induction l with
  | nil => rfl
  | cons p rest ih =>
    obtain ⟨e, ss⟩ := p
    cases ss with
    | nil => simpa [updateLoop] using ih
    | cons s0 tail =>
      have hss : 0 < (s0 :: tail).length := by simp
      obtain ⟨s, hs⟩ : ∃ s, (s0 :: tail).getLast? = some s := by
        cases hL : (s0 :: tail).getLast? with
        | none => simp at hL
        | some s => exact ⟨s, rfl⟩
      simp [updateLoop, hss, h, ih, calculate_tw, hs]

lemma updateLoop_all_empty (cfg : Config) (now : ℚ) :
    ∀ l, (∀ p ∈ l, p.2 = []) → updateLoop cfg now l = LoopOut.mk l 0 false none := by
  intro l
  induction l with
  | nil => intro _; rfl
  | cons p rest ih =>
    intro h
    obtain ⟨e, ss⟩ := p
    have hnil : ss = [] := h (e, ss) (by simp)
    subst hnil
    simp [updateLoop, ih fun q hq => h q (by simp [hq])]

lemma update_state_fst_states (cfg : Config) (st : SensorState) (x : ℚ) :
    (update_state cfg st x).1.states = st.states := by
  unfold update_state
  split
  · rfl
  · rfl

lemma update_state_snd_attrs (cfg : Config) (st : SensorState) (x : ℚ) (rep : Report)
    (hx : cfg.extremas = true) (h : (update_state cfg st x).2 = some rep) :
    rep.attrs = some (ExtremaAttrs.mk (AttrVal.str (strOfOpt st.min_value))
      (AttrVal.entityId st.min_entity_id) (AttrVal.str (strOfOpt st.max_value))
      (AttrVal.entityId st.max_entity_id)) := by
  unfold update_state at h
  split at h
  · exact absurd h (by simp)
  · have h2 : rep = Report.mk (pyRound cfg.precision x) (newAttrs cfg st) :=
      (Option.some.inj h).symm
    rw [h2]
    simp [newAttrs, hx]

lemma report_attrs_spec (cfg : Config) (now : ℚ) (st : SensorState) (rep : Report)
    (hx : cfg.extremas = true) (hrep : (update cfg now st).report = some rep) :
    rep.attrs = some (ExtremaAttrs.mk (AttrVal.str (strOfOpt st.min_value))
      (AttrVal.entityId st.min_entity_id) (AttrVal.str (strOfOpt st.max_value))
      (AttrVal.entityId st.max_entity_id)) := by
  simp only [update] at hrep
  cases herr : (updateLoop cfg now st.states).err with
  | some e =>
    rw [herr] at hrep
    simp at hrep
  | none =>
    rw [herr] at hrep
    by_cases hch : (updateLoop cfg now st.states).changed
    · rw [if_pos hch] at hrep
      by_cases htm : cfg.total_method = TotalMethod.average
      · rw [if_pos htm] at hrep
        exact update_state_snd_attrs cfg
          { st with states := (updateLoop cfg now st.states).items }
          ((updateLoop cfg now st.states).total / (st.states.length : ℚ)) rep hx
          (by exact hrep)
      · rw [if_neg htm] at hrep
        exact update_state_snd_attrs cfg
          { st with states := (updateLoop cfg now st.states).items }
          (updateLoop cfg now st.states).total rep hx (by exact hrep)
    · rw [if_neg hch] at hrep
      exact absurd (show (none : Option Report) = some rep from hrep) (by simp)

/-- C4: for every non-empty buffer, the time-weighted contribution of
`calculate_tw` equals the sum over the samples of value times duration —
the gap to the next sample's timestamp, and `now` minus the last
sample's timestamp for the last sample — divided by the nominal
scheduling interval length `scan_interval`, a configuration constant
independent of when the previous tick actually ran. -/
theorem C4_tw_contribution_formula (si now : ℚ) (ss : List Sample) (h : ss ≠ []) :
    (calculate_tw si now ss).1 = tw_contribution_spec now ss / si := by
  unfold calculate_tw
  rw [tw_sum_eq_spec now ss h]

/-- C4 witness: the spec's two-sample scenario, samples `(0,10)` and
`(30,20)` with tick at `60` over a 60-second interval, gives 15. -/
theorem C4_tw_contribution_formula_witness :
    ([Sample.mk 0 10, Sample.mk 30 20] ≠ ([] : List Sample)) ∧
    (calculate_tw 60 60 [Sample.mk 0 10, Sample.mk 30 20]).1 =
      tw_contribution_spec 60 [Sample.mk 0 10, Sample.mk 30 20] / 60 ∧
    (calculate_tw 60 60 [Sample.mk 0 10, Sample.mk 30 20]).1 = 15 :=
  ⟨by decide, C4_tw_contribution_formula 60 60 [Sample.mk 0 10, Sample.mk 30 20] (by decide),
   by norm_num [calculate_tw, tw_sum]⟩

/-- C5: the mean computed at sensor.py line 301 is the arithmetic mean
of the buffered values (shown here on the same values under two
different timestamp assignments), but `calculate_linear` never returns
it: the debug log at line 305 references the undefined name `total`, so
the tick computation raises `NameError` instead of returning the
contribution. The full tick on a single source with samples
`(0,2),(30,4)` clears the buffer and propagates the error with no
report. -/
theorem C5_linear_mean_computed_but_not_returned :
    linear_result [Sample.mk 0 2, Sample.mk 30 4] = 3 ∧
    linear_result [Sample.mk 7 2, Sample.mk 9 4] = 3 ∧
    (calculate_linear [Sample.mk 0 2, Sample.mk 30 4]).2.2 = some PyError.nameError ∧
    update (Config.mk 60 Method.linear TotalMethod.sum 1 false) 60
        (SensorState.mk [("a", [Sample.mk 0 2, Sample.mk 30 4])] none none none none none none) =
      UpdateResult.mk (SensorState.mk [("a", [])] none none none none none none) none
        (some PyError.nameError) := by
  refine ⟨by norm_num [linear_result], by norm_num [linear_result], rfl,
    by norm_num [update, updateLoop, calculate_linear, linear_result]⟩

/-- C6: with the linear method and a non-empty buffer, the tick is not
error-free: `update` propagates the `NameError` raised by the undefined
name `total` in `calculate_linear` to its caller, contradicting the
claim that all per-tick errors are recovered locally. The buffer is
cleared before the error, no report is emitted, and the extrema reset at
line 273 is skipped. -/
theorem C6_linear_tick_error_propagates :
    (update (Config.mk 60 Method.linear TotalMethod.sum 1 false) 60
      (SensorState.mk [("a", [Sample.mk 0 5])] none none none none none none)).err =
        some PyError.nameError ∧
    (update (Config.mk 60 Method.linear TotalMethod.sum 1 false) 60
      (SensorState.mk [("a", [Sample.mk 0 5])] none none none none none none)).report =
        none := by
  exact ⟨by norm_num [update, updateLoop, calculate_linear],
    by norm_num [update, updateLoop, calculate_linear]⟩

lemma ingestF_sentinel_or_malformed_dropped (cfg : Config) (st : IngestState) (e : String)
    (t : ℚ) (raw : RawState)
    (h : raw = RawState.unavailable ∨ raw = RawState.unknown ∨ raw = RawState.malformed) :
    ingestF cfg st e t raw = st := by
  rcases h with h | h | h <;> subst h <;> rfl

lemma lookup_embedBuffers (e : String) :
    ∀ l : List (String × List Sample),
      (embedBuffers l).lookup e = (l.lookup e).map (List.map embedSample) := by
  intro l
  induction l with
  | nil => rfl
  | cons p rest ih =>
    obtain ⟨k, v⟩ := p
    by_cases hk : e = k
    · simp [embedBuffers, List.lookup, hk]
    · simp only [embedBuffers, List.map_cons, List.lookup] at ih ⊢
      rw [show (e == k) = false from beq_eq_false_iff_ne.mpr hk]
      exact ih

lemma appendSampleF_embed (l : List (String × List Sample)) (e : String) (s : Sample) :
    appendSampleF (embedBuffers l) e (embedSample s) = embedBuffers (appendSample l e s) := by
  simp only [appendSampleF, appendSample, embedBuffers, List.map_map]
  congr 1
  funext p
  by_cases hp : p.1 = e
  · simp [Function.comp, hp]
  · simp [Function.comp, hp]

/-- Agreement of the full-domain ingestion handler with the
finite-fragment one: on a state whose values are all finite and a raw
state `float` parses to a finite value, `ingestF` is exactly the
embedding of `ingest`. -/
lemma ingestF_agrees_on_finite (cfg : Config) (st : SensorState) (e : String) (t v : ℚ) :
    ingestF cfg (embedIngest st) e t (RawState.parsed (PyFloat.finite v)) =
      embedIngest (ingest cfg st e t (RawValue.parseable v)) := by
  cases hlo : st.states.lookup e with
  | none =>
    have h1 : (embedBuffers st.states).lookup e = none := by
      rw [lookup_embedBuffers, hlo]; rfl
    simp [ingestF, ingest, embedIngest, h1, hlo]
  | some buf =>
    have h1 : (embedBuffers st.states).lookup e = some (buf.map embedSample) := by
      rw [lookup_embedBuffers, hlo]; rfl
    have hs : SampleF.mk t (PyFloat.finite v) = embedSample (Sample.mk t v) := rfl
    simp only [ingestF, ingest, embedIngest, h1, hlo, Option.isSome_some, if_true]
    by_cases hx : cfg.extremas = true
    · simp only [hx, if_true]
      cases hmv : st.min_value with
      | none =>
        simp [updateExtremasF, updateExtremas, embedIngest, hmv, hs, appendSampleF_embed]
      | some m =>
        cases hMv : st.max_value with
        | none =>
          simp [updateExtremasF, updateExtremas, embedIngest, hmv, hMv, hs,
            appendSampleF_embed]
        | some M =>
          by_cases hvm : v < m
          · simp [updateExtremasF, updateExtremas, embedIngest, hmv, hMv, hs,
              appendSampleF_embed, PyFloat.lt, hvm]
          · by_cases hMv2 : M < v
            · simp [updateExtremasF, updateExtremas, embedIngest, hmv, hMv, hs,
                appendSampleF_embed, PyFloat.lt, hvm, hMv2]
            · simp [updateExtremasF, updateExtremas, embedIngest, hmv, hMv, hs,
                appendSampleF_embed, PyFloat.lt, hvm, hMv2]
    · simp [hx, embedIngest, hs, appendSampleF_embed]

/-- C8: the sentinels and the strings `float` raises on are dropped
with no state change, as claimed — but the claim's full class, raw
values "not parseable as a finite floating-point number", is not:
Python `float("inf")` parses successfully, the code performs no
finiteness check, and so the event is *appended* at sensor.py line 232
— here the buffer gains the sample `(5, inf)` and the extrema tracker
promotes inf to the maximum owned by the ingesting source — instead of
being dropped with the state unchanged. -/
theorem C8_nonfinite_parse_appended_not_dropped :
    (ingestF (Config.mk 60 Method.timeWeighted TotalMethod.sum 1 true)
        (IngestState.mk [("a", [])] (some (PyFloat.finite 1)) (some (PyFloat.finite 2))
          (some "a") (some "a")) "a" 5 RawState.unavailable =
      IngestState.mk [("a", [])] (some (PyFloat.finite 1)) (some (PyFloat.finite 2))
        (some "a") (some "a")) ∧
    (ingestF (Config.mk 60 Method.timeWeighted TotalMethod.sum 1 true)
        (IngestState.mk [("a", [])] (some (PyFloat.finite 1)) (some (PyFloat.finite 2))
          (some "a") (some "a")) "a" 5 RawState.malformed =
      IngestState.mk [("a", [])] (some (PyFloat.finite 1)) (some (PyFloat.finite 2))
        (some "a") (some "a")) ∧
    (ingestF (Config.mk 60 Method.timeWeighted TotalMethod.sum 1 true)
        (IngestState.mk [("a", [])] (some (PyFloat.finite 1)) (some (PyFloat.finite 2))
          (some "a") (some "a")) "a" 5 (RawState.parsed PyFloat.inf) =
      IngestState.mk [("a", [SampleF.mk 5 PyFloat.inf])] (some (PyFloat.finite 1))
        (some PyFloat.inf) (some "a") (some "a")) ∧
    (IngestState.mk [("a", [SampleF.mk 5 PyFloat.inf])] (some (PyFloat.finite 1))
        (some PyFloat.inf) (some "a") (some "a") ≠
      IngestState.mk [("a", [])] (some (PyFloat.finite 1)) (some (PyFloat.finite 2))
        (some "a") (some "a")) := by
  exact ⟨rfl, rfl, by decide, by decide⟩

/-- C1 counterexample: two configured sources, combine method average;
source "a" contributes 3 (one sample of value 3 spanning the whole
interval), source "b" has an empty buffer. The claim predicts
3 / 1 = 3 (empty sources excluded from the denominator); the code
divides by `len(self.states)` = 2 (sensor.py line 268) and reports 1.5. -/
theorem C1_counterexample :
    (update (Config.mk 60 Method.timeWeighted TotalMethod.average 1 false) 60
      (SensorState.mk [("a", [Sample.mk 0 3]), ("b", [])] none none none none none none)).report =
        some (Report.mk (3/2) none) ∧
    ((3 : ℚ)/2 ≠ 3 / 1) := by
  constructor
  · norm_num [update, updateLoop, calculate_tw, tw_sum, update_state, pyRound, roundHalfEven,
      ratFloor, newAttrs, show Method.timeWeighted ≠ Method.linear from by decide]
    simp
  · norm_num

/-- C2 counterexample: with the linear method, a source whose buffer held
`(3,7)` at tick time 60 ends the tick with an *empty* buffer
(`calculate_linear` clears without reseeding, sensor.py line 303), not
with the single seed sample the claim requires. -/
theorem C2_counterexample :
    ((update (Config.mk 60 Method.linear TotalMethod.sum 1 false) 60
        (SensorState.mk [("a", [Sample.mk 3 7])] none none none none none none)).st.states.lookup
      "a") = some [] ∧
    ([] : List Sample).length ≠ 1 ∧
    ([] : List Sample) ≠ [Sample.mk 60 7] := by
  refine ⟨by norm_num [update, updateLoop, calculate_linear], by decide, by decide⟩

/-- C3 counterexample: one source, time-weighted method, samples
`(0,10),(30,20)`, tick at 60 reports 15 and reseeds the buffer with
`(60,20)`; a second tick at 120 with no ingestion in between finds the
non-empty seed buffer, recomputes 20, and — because 20 differs from the
stored 15 — emits a second report and changes `current_value`. -/
theorem C3_counterexample :
    (let cfg := Config.mk 60 Method.timeWeighted TotalMethod.sum 1 false
     let r1 := update cfg 60
       (SensorState.mk [("a", [Sample.mk 0 10, Sample.mk 30 20])] none none none none none none)
     let r2 := update cfg 120 r1.st
     r1.st.native_value = some 15 ∧ r2.report = some (Report.mk 20 none) ∧
       r2.st.native_value = some 20 ∧ r1.st.native_value ≠ r2.st.native_value) := by
  norm_num [update, updateLoop, calculate_tw, tw_sum, update_state, pyRound, roundHalfEven,
    ratFloor, newAttrs, show Method.timeWeighted ≠ Method.linear from by decide]
  simp

lemma update_err_eq (cfg : Config) (now : ℚ) (st : SensorState) :
    (update cfg now st).err = (updateLoop cfg now st.states).err := by
  simp only [update]
  cases herr : (updateLoop cfg now st.states).err with
  | some e => simp
  | none => simp

lemma update_st_states_eq (cfg : Config) (now : ℚ) (st : SensorState) :
    (update cfg now st).st.states = (updateLoop cfg now st.states).items := by
  simp only [update]
  cases herr : (updateLoop cfg now st.states).err with
  | some e => simp
  | none =>
    by_cases hch : (updateLoop cfg now st.states).changed = true
    · by_cases htm : cfg.total_method = TotalMethod.average
      · simp [hch, htm, update_state_fst_states]
      · simp [hch, htm, update_state_fst_states]
    · simp [hch]

lemma update_report_of_changed (cfg : Config) (now : ℚ) (st : SensorState)
    (herr : (updateLoop cfg now st.states).err = none)
    (hch : (updateLoop cfg now st.states).changed = true)
    (htm : cfg.total_method = TotalMethod.average) :
    (update cfg now st).report =
      (update_state cfg { st with states := (updateLoop cfg now st.states).items }
        ((updateLoop cfg now st.states).total / (st.states.length : ℚ))).2 := by
  simp only [update]
  cases herr2 : (updateLoop cfg now st.states).err with
  | some e => rw [herr2] at herr; exact absurd herr (by simp)
  | none => simp [hch, htm]

/-- C2 (amended): after a tick with the time-weighted method, every
source whose buffer was non-empty ends with a buffer holding exactly the
one seed sample `(now, last buffered value)`, empty buffers stay empty,
and the tick returns without error. (With the linear method the claim
fails: the buffer is cleared without reseeding — see the counterexample.) -/
theorem C2_seed_after_tw_tick (cfg : Config) (now : ℚ) (st : SensorState)
    (h : cfg.method = Method.timeWeighted) :
    (update cfg now st).err = none ∧
    (update cfg now st).st.states = st.states.map (fun p =>
      match p.2.getLast? with
      | none => p
      | some s => (p.1, [Sample.mk now s.v])) := by
  refine ⟨?_, ?_⟩
  · rw [update_err_eq]
    exact updateLoop_err_eq_none_tw cfg now h st.states
  · rw [update_st_states_eq]
    exact updateLoop_items_tw cfg now h st.states

/-- C2 witness: one source with buffer `(0,10),(30,20)`, tick at 60:
the buffer afterwards is exactly `[(60, 20)]` and no error occurred. -/
theorem C2_seed_after_tw_tick_witness :
    (update (Config.mk 60 Method.timeWeighted TotalMethod.sum 1 false) 60
      (SensorState.mk [("a", [Sample.mk 0 10, Sample.mk 30 20])] none none none none none
        none)).err = none ∧
    (update (Config.mk 60 Method.timeWeighted TotalMethod.sum 1 false) 60
      (SensorState.mk [("a", [Sample.mk 0 10, Sample.mk 30 20])] none none none none none
        none)).st.states = [("a", [Sample.mk 60 20])] := by
  have h := C2_seed_after_tw_tick (Config.mk 60 Method.timeWeighted TotalMethod.sum 1 false) 60
    (SensorState.mk [("a", [Sample.mk 0 10, Sample.mk 30 20])] none none none none none none)
    rfl
  exact ⟨h.1, by rw [h.2]; decide⟩

/-- C3 (amended): a tick on a state in which every source buffer is
empty emits no report, leaves `current_value` unchanged and returns
without error; hence a second consecutive tick is a no-op exactly when
the first tick left every buffer empty. (After a time-weighted tick that
processed data the buffers are reseeded, so the second tick recomputes
and may report — see the counterexample.) -/
theorem C3_empty_tick_noop (cfg : Config) (now : ℚ) (st : SensorState)
    (h : ∀ p ∈ st.states, p.2 = []) :
    (update cfg now st).report = none ∧
    (update cfg now st).st.native_value = st.native_value ∧
    (update cfg now st).err = none := by
  have hl := updateLoop_all_empty cfg now st.states h
  simp [update, hl]

/-- C3 witness: a tick over a single empty buffer with a stored value of
5 reports nothing and keeps the value. -/
theorem C3_empty_tick_noop_witness :
    (∀ p ∈ [("a", ([] : List Sample))], p.2 = ([] : List Sample)) ∧
    ((update (Config.mk 60 Method.timeWeighted TotalMethod.sum 1 false) 60
        (SensorState.mk [("a", [])] none none none none (some 5) none)).report = none ∧
     (update (Config.mk 60 Method.timeWeighted TotalMethod.sum 1 false) 60
        (SensorState.mk [("a", [])] none none none none (some 5) none)).st.native_value =
       some 5 ∧
     (update (Config.mk 60 Method.timeWeighted TotalMethod.sum 1 false) 60
        (SensorState.mk [("a", [])] none none none none (some 5) none)).err = none) :=
  ⟨by decide,
   C3_empty_tick_noop (Config.mk 60 Method.timeWeighted TotalMethod.sum 1 false) 60
     (SensorState.mk [("a", [])] none none none none (some 5) none) (by decide)⟩

/-- C1 (amended): when the combine method is average and at least one
source has samples (time-weighted method), the value handed to the
publish step is the sum of the per-source contributions divided by the
number of *configured* sources (`len(self.states)`, sensor.py line 268)
— sources with empty buffers are counted in the denominator, not
excluded from it; a report carrying that value is emitted iff it differs
from the stored one after rounding. -/
theorem C1_average_divides_by_configured_count (cfg : Config) (now : ℚ) (st : SensorState)
    (hm : cfg.method = Method.timeWeighted) (ht : cfg.total_method = TotalMethod.average)
    (hne : ∃ p ∈ st.states, p.2 ≠ []) :
    (update cfg now st).err = none ∧
    Option.map Report.value (update cfg now st).report =
      (if st.native_value = some (pyRound cfg.precision
            (twTotal cfg.scan_interval now st.states / (st.states.length : ℚ)))
       then none
       else some (pyRound cfg.precision
            (twTotal cfg.scan_interval now st.states / (st.states.length : ℚ)))) := by
  have herr := updateLoop_err_eq_none_tw cfg now hm st.states
  have htot := updateLoop_total_tw cfg now hm st.states
  have hch : (updateLoop cfg now st.states).changed = true :=
    (updateLoop_changed_iff cfg now st.states).2 hne
  refine ⟨by rw [update_err_eq]; exact herr, ?_⟩
  rw [update_report_of_changed cfg now st herr hch ht, htot]
  unfold update_state
  split_ifs with h1 <;> simp

/-- C1 witness: source "a" contributes 3, source "b" is empty; with no
stored value the published value is 3 / 2 = 1.5 (division by the two
configured sources). -/
theorem C1_average_divides_by_configured_count_witness :
    Option.map Report.value
      (update (Config.mk 60 Method.timeWeighted TotalMethod.average 1 false) 60
        (SensorState.mk [("a", [Sample.mk 0 3]), ("b", [])] none none none none none
          none)).report = some (3/2) := by
  have h := C1_average_divides_by_configured_count
    (Config.mk 60 Method.timeWeighted TotalMethod.average 1 false) 60
    (SensorState.mk [("a", [Sample.mk 0 3]), ("b", [])] none none none none none none)
    rfl rfl ⟨("a", [Sample.mk 0 3]), by decide, by decide⟩
  rw [h.2]
  norm_num [twTotal, calculate_tw, tw_sum, pyRound, roundHalfEven, ratFloor]

/-- C7: with extrema tracking enabled and the tracker holding
`min = m ≤ M = max`, ingesting a value exactly equal to the current
minimum (respectively maximum) leaves all four tracker fields — both
extremum values and their owning entity ids — unchanged (first-seen
wins, the `elif` chain at sensor.py lines 239-244 compares with strict
`<` and `>`); and the minimum (respectively maximum) with its owner is
replaced only by a strictly smaller (respectively strictly larger)
value. -/
theorem C7_extrema_tie_keeps_first (cfg : Config) (st : SensorState) (e : String)
    (t m M : ℚ) (hx : cfg.extremas = true) (hm : st.min_value = some m)
    (hM : st.max_value = some M) (hmM : m ≤ M) :
    ((ingest cfg st e t (RawValue.parseable m)).min_value = st.min_value ∧
     (ingest cfg st e t (RawValue.parseable m)).min_entity_id = st.min_entity_id ∧
     (ingest cfg st e t (RawValue.parseable m)).max_value = st.max_value ∧
     (ingest cfg st e t (RawValue.parseable m)).max_entity_id = st.max_entity_id) ∧
    ((ingest cfg st e t (RawValue.parseable M)).min_value = st.min_value ∧
     (ingest cfg st e t (RawValue.parseable M)).min_entity_id = st.min_entity_id ∧
     (ingest cfg st e t (RawValue.parseable M)).max_value = st.max_value ∧
     (ingest cfg st e t (RawValue.parseable M)).max_entity_id = st.max_entity_id) ∧
    (∀ v : ℚ,
      ((ingest cfg st e t (RawValue.parseable v)).min_value ≠ st.min_value ∨
        (ingest cfg st e t (RawValue.parseable v)).min_entity_id ≠ st.min_entity_id) →
      v < m) ∧
    (∀ v : ℚ,
      ((ingest cfg st e t (RawValue.parseable v)).max_value ≠ st.max_value ∨
        (ingest cfg st e t (RawValue.parseable v)).max_entity_id ≠ st.max_entity_id) →
      M < v) := by
  have hA : ∀ v : ℚ, ¬ v < m → ¬ M < v →
      (ingest cfg st e t (RawValue.parseable v)).min_value = st.min_value ∧
      (ingest cfg st e t (RawValue.parseable v)).min_entity_id = st.min_entity_id ∧
      (ingest cfg st e t (RawValue.parseable v)).max_value = st.max_value ∧
      (ingest cfg st e t (RawValue.parseable v)).max_entity_id = st.max_entity_id := by
    intro v h1 h2
    by_cases hk : (st.states.lookup e).isSome = true
    · by_cases hx2 : cfg.extremas = true
      · simp [ingest, hk, hx2, updateExtremas, hm, hM, h1, h2]
      · simp [ingest, hk, hx2]
    · simp [ingest, hk]
  have hBmin : ∀ v : ℚ, ¬ v < m →
      (ingest cfg st e t (RawValue.parseable v)).min_value = st.min_value ∧
      (ingest cfg st e t (RawValue.parseable v)).min_entity_id = st.min_entity_id := by
    intro v h1
    by_cases hk : (st.states.lookup e).isSome = true
    · by_cases hx2 : cfg.extremas = true
      · by_cases h2 : M < v
        · simp [ingest, hk, hx2, updateExtremas, hm, hM, h1, h2]
        · simp [ingest, hk, hx2, updateExtremas, hm, hM, h1, h2]
      · simp [ingest, hk, hx2]
    · simp [ingest, hk]
  have hBmax : ∀ v : ℚ, ¬ M < v →
      (ingest cfg st e t (RawValue.parseable v)).max_value = st.max_value ∧
      (ingest cfg st e t (RawValue.parseable v)).max_entity_id = st.max_entity_id := by
    intro v h2
    by_cases hk : (st.states.lookup e).isSome = true
    · by_cases hx2 : cfg.extremas = true
      · by_cases h1 : v < m
        · simp [ingest, hk, hx2, updateExtremas, hm, hM, h1, h2]
        · simp [ingest, hk, hx2, updateExtremas, hm, hM, h1, h2]
      · simp [ingest, hk, hx2]
    · simp [ingest, hk]
  refine ⟨hA m (lt_irrefl m) (not_lt.mpr hmM), hA M (not_lt.mpr hmM) (lt_irrefl M), ?_, ?_⟩
  · intro v hv
    by_contra h1
    rcases hBmin v h1 with ⟨e1, e2⟩
    rcases hv with hv | hv
    · exact hv e1
    · exact hv e2
  · intro v hv
    by_contra h2
    rcases hBmax v h2 with ⟨e1, e2⟩
    rcases hv with hv | hv
    · exact hv e1
    · exact hv e2

/-- C7 witness: tracker at `min = 1` (from "a"), `max = 2` (from "a");
source "b" ingests the value 1 and then the value 2: both extremum
owners stay "a". -/
theorem C7_extrema_tie_keeps_first_witness :
    (ingest (Config.mk 60 Method.timeWeighted TotalMethod.sum 1 true)
      (SensorState.mk [("a", []), ("b", [])] (some 1) (some 2) (some "a") (some "a") none none)
      "b" 5 (RawValue.parseable 1)).min_entity_id = some "a" ∧
    (ingest (Config.mk 60 Method.timeWeighted TotalMethod.sum 1 true)
      (SensorState.mk [("a", []), ("b", [])] (some 1) (some 2) (some "a") (some "a") none none)
      "b" 5 (RawValue.parseable 2)).max_entity_id = some "a" := by
  have h := C7_extrema_tie_keeps_first
    (Config.mk 60 Method.timeWeighted TotalMethod.sum 1 true)
    (SensorState.mk [("a", []), ("b", [])] (some 1) (some 2) (some "a") (some "a") none none)
    "b" 5 1 2 rfl rfl rfl (by norm_num)
  exact ⟨h.1.2.1, h.2.1.2.2.2⟩

/-- C9 counterexample: extrema tracking enabled, time-weighted method;
interval one ingests 10 and 20 from source "a" and the tick at 60
reports 15 with real extrema. No sample is ingested in interval two, yet
the tick at 120 still reports (the reseeded buffer yields 20 ≠ 15), and
the attached minimum/maximum value attributes are the *string* "None"
(`str(None)`, modelled `PyStr.ofNone`) — a placeholder string, not an
absent or null value — while only the source-id attributes are null. -/
theorem C9_counterexample :
    (let cfg := Config.mk 60 Method.timeWeighted TotalMethod.sum 1 true
     let st0 := SensorState.mk [("a", [])] none none none none none none
     let st1 := ingest cfg st0 "a" 0 (RawValue.parseable 10)
     let st2 := ingest cfg st1 "a" 30 (RawValue.parseable 20)
     let r1 := update cfg 60 st2
     let r2 := update cfg 120 r1.st
     r2.report = some (Report.mk 20 (some (ExtremaAttrs.mk (AttrVal.str PyStr.ofNone)
       (AttrVal.entityId none) (AttrVal.str PyStr.ofNone) (AttrVal.entityId none)))) ∧
       AttrVal.str PyStr.ofNone ≠ AttrVal.entityId none) := by
  refine ⟨?_, by decide⟩
  norm_num [ingest, appendSample, updateExtremas, update, updateLoop, calculate_tw, tw_sum,
    update_state, pyRound, roundHalfEven, ratFloor, newAttrs, strOfOpt,
    show Method.timeWeighted ≠ Method.linear from by decide]
  simp

/-- C9 (amended): when a report is emitted with extrema tracking enabled
while the tracker is unset (no sample ingested during the interval just
closed), the source-id attributes attached to the report are null, but
the minimum/maximum value attributes are the string `str(None)` — the
string "None" — rather than being absent or null. -/
theorem C9_no_sample_attrs_are_str_none (cfg : Config) (now : ℚ) (st : SensorState)
    (rep : Report) (hx : cfg.extremas = true) (hmin : st.min_value = none)
    (hmax : st.max_value = none) (hmi : st.min_entity_id = none)
    (hma : st.max_entity_id = none) (hrep : (update cfg now st).report = some rep) :
    rep.attrs = some (ExtremaAttrs.mk (AttrVal.str PyStr.ofNone) (AttrVal.entityId none)
      (AttrVal.str PyStr.ofNone) (AttrVal.entityId none)) := by
  have h := report_attrs_spec cfg now st rep hx hrep
  rw [hmin, hmax, hmi, hma] at h
  exact h

/-- C9 witness: state after a first report (stored value 15, seed buffer
`(60,20)`, tracker reset): the tick at 120 reports 20 with the
string-"None" value attributes and null id attributes. -/
theorem C9_no_sample_attrs_are_str_none_witness :
    ((update (Config.mk 60 Method.timeWeighted TotalMethod.sum 1 true) 120
        (SensorState.mk [("a", [Sample.mk 60 20])] none none none none (some 15)
          (some (ExtremaAttrs.mk (AttrVal.str (PyStr.ofFloat 10)) (AttrVal.entityId (some "a"))
            (AttrVal.str (PyStr.ofFloat 20)) (AttrVal.entityId (some "a")))))).report =
      some (Report.mk 20 (some (ExtremaAttrs.mk (AttrVal.str PyStr.ofNone)
        (AttrVal.entityId none) (AttrVal.str PyStr.ofNone) (AttrVal.entityId none))))) ∧
    (Report.mk 20 (some (ExtremaAttrs.mk (AttrVal.str PyStr.ofNone) (AttrVal.entityId none)
        (AttrVal.str PyStr.ofNone) (AttrVal.entityId none)))).attrs =
      some (ExtremaAttrs.mk (AttrVal.str PyStr.ofNone) (AttrVal.entityId none)
        (AttrVal.str PyStr.ofNone) (AttrVal.entityId none)) := by
  have hrep : (update (Config.mk 60 Method.timeWeighted TotalMethod.sum 1 true) 120
      (SensorState.mk [("a", [Sample.mk 60 20])] none none none none (some 15)
        (some (ExtremaAttrs.mk (AttrVal.str (PyStr.ofFloat 10)) (AttrVal.entityId (some "a"))
          (AttrVal.str (PyStr.ofFloat 20)) (AttrVal.entityId (some "a")))))).report =
      some (Report.mk 20 (some (ExtremaAttrs.mk (AttrVal.str PyStr.ofNone)
        (AttrVal.entityId none) (AttrVal.str PyStr.ofNone) (AttrVal.entityId none)))) := by
    norm_num [update, updateLoop, calculate_tw, tw_sum, update_state, pyRound, roundHalfEven,
      ratFloor, newAttrs, strOfOpt, show Method.timeWeighted ≠ Method.linear from by decide]
  exact ⟨hrep,
    C9_no_sample_attrs_are_str_none (Config.mk 60 Method.timeWeighted TotalMethod.sum 1 true)
      120
      (SensorState.mk [("a", [Sample.mk 60 20])] none none none none (some 15)
        (some (ExtremaAttrs.mk (AttrVal.str (PyStr.ofFloat 10)) (AttrVal.entityId (some "a"))
          (AttrVal.str (PyStr.ofFloat 20)) (AttrVal.entityId (some "a")))))
      (Report.mk 20 (some (ExtremaAttrs.mk (AttrVal.str PyStr.ofNone) (AttrVal.entityId none)
        (AttrVal.str PyStr.ofNone) (AttrVal.entityId none))))
      rfl rfl rfl rfl rfl hrep⟩

/-- C10: every report emitted with extrema tracking enabled carries, as
its minimum/maximum value attributes, `str` applied to the tracked
number-or-None (`strOfOpt`), and, as its source-id attributes, the
tracked entity ids passed through unconverted. -/
theorem C10_value_attrs_stringified_ids_passed_through (cfg : Config) (now : ℚ)
    (st : SensorState) (rep : Report) (hx : cfg.extremas = true)
    (hrep : (update cfg now st).report = some rep) :
    rep.attrs = some (ExtremaAttrs.mk (AttrVal.str (strOfOpt st.min_value))
      (AttrVal.entityId st.min_entity_id) (AttrVal.str (strOfOpt st.max_value))
      (AttrVal.entityId st.max_entity_id)) :=
  report_attrs_spec cfg now st rep hx hrep

/-- C10 witness: tracker at min 10 / max 20, both from "a"; the emitted
report's value attributes are the stringified floats and the id
attributes the raw entity ids. -/
theorem C10_value_attrs_stringified_witness :
    ((update (Config.mk 60 Method.timeWeighted TotalMethod.sum 1 true) 60
        (SensorState.mk [("a", [Sample.mk 0 10, Sample.mk 30 20])] (some 10) (some 20)
          (some "a") (some "a") none none)).report =
      some (Report.mk 15 (some (ExtremaAttrs.mk (AttrVal.str (PyStr.ofFloat 10))
        (AttrVal.entityId (some "a")) (AttrVal.str (PyStr.ofFloat 20))
        (AttrVal.entityId (some "a")))))) ∧
    (Report.mk 15 (some (ExtremaAttrs.mk (AttrVal.str (PyStr.ofFloat 10))
        (AttrVal.entityId (some "a")) (AttrVal.str (PyStr.ofFloat 20))
        (AttrVal.entityId (some "a"))))).attrs =
      some (ExtremaAttrs.mk (AttrVal.str (strOfOpt (some 10))) (AttrVal.entityId (some "a"))
        (AttrVal.str (strOfOpt (some 20))) (AttrVal.entityId (some "a"))) := by
  have hrep : (update (Config.mk 60 Method.timeWeighted TotalMethod.sum 1 true) 60
      (SensorState.mk [("a", [Sample.mk 0 10, Sample.mk 30 20])] (some 10) (some 20)
        (some "a") (some "a") none none)).report =
      some (Report.mk 15 (some (ExtremaAttrs.mk (AttrVal.str (PyStr.ofFloat 10))
        (AttrVal.entityId (some "a")) (AttrVal.str (PyStr.ofFloat 20))
        (AttrVal.entityId (some "a"))))) := by
    norm_num [update, updateLoop, calculate_tw, tw_sum, update_state, pyRound, roundHalfEven,
      ratFloor, newAttrs, strOfOpt, show Method.timeWeighted ≠ Method.linear from by decide]
    simp
  exact ⟨hrep,
    C10_value_attrs_stringified_ids_passed_through
      (Config.mk 60 Method.timeWeighted TotalMethod.sum 1 true) 60
      (SensorState.mk [("a", [Sample.mk 0 10, Sample.mk 30 20])] (some 10) (some 20)
        (some "a") (some "a") none none)
      (Report.mk 15 (some (ExtremaAttrs.mk (AttrVal.str (PyStr.ofFloat 10))
        (AttrVal.entityId (some "a")) (AttrVal.str (PyStr.ofFloat 20))
        (AttrVal.entityId (some "a")))))
      rfl hrep⟩

end TwAvg
